import Mathlib

/-!
Verification of the tag parser / style cascade / layout engine specification
against `src/src/TaggedText.ts` of pixi-tagged-text-plus.

The source under `src/` contains only `TaggedText.ts`; its helper modules
(`types.ts`, `tags.ts`, `style.ts`, `layout.ts`, `stringUtil.ts`,
`pixiUtils.ts`, `defaultOptions.ts`, `defaultStyle.ts`) are not part of the
sources, so the definitions that come from those files are modelled from the
spec and marked as such in their doc comments.  Everything else is a direct
shallow embedding of `TaggedText.ts`.

Modelling conventions:
- JavaScript numbers are modelled by `JSNum`: either a rational (`num q`) or
  one of the non-finite values `nan`, `posInf`, `negInf`.  Finite float
  arithmetic is idealised as exact rational arithmetic; the special-value
  propagation rules (`NaN`, infinities) follow the ECMAScript semantics.
- Plain geometric quantities that the claims only treat finitely are
  modelled directly as rationals.
- JavaScript objects used as string-keyed dictionaries are modelled as
  association lists preserving insertion order (JS objects enumerate string
  keys in insertion order).
-/

/-- JavaScript number: a rational, or one of the non-finite special values. -/
inductive JSNum where
  | nan : JSNum
  | posInf : JSNum
  | negInf : JSNum
  | num : ℚ → JSNum
deriving DecidableEq

/-- JavaScript `Number.isNaN`. -/
def jsIsNaN : JSNum → Bool
  | JSNum.nan => true
  | _ => false

/-- JavaScript `<` comparison on numbers: any comparison with NaN is false. -/
def jsLt : JSNum → JSNum → Bool
  | JSNum.nan, _ => false
  | _, JSNum.nan => false
  | JSNum.negInf, JSNum.negInf => false
  | JSNum.negInf, _ => true
  | _, JSNum.negInf => false
  | JSNum.posInf, _ => false
  | JSNum.num _, JSNum.posInf => true
  | JSNum.num a, JSNum.num b => decide (a < b)

/-- JavaScript `x < 0` test. -/
def jsLtZero (x : JSNum) : Bool := jsLt x (JSNum.num 0)

/-- JavaScript `Math.max` on two numbers: NaN-propagating, infinity-aware. -/
def jsMax : JSNum → JSNum → JSNum
  | JSNum.nan, _ => JSNum.nan
  | _, JSNum.nan => JSNum.nan
  | JSNum.posInf, _ => JSNum.posInf
  | _, JSNum.posInf => JSNum.posInf
  | JSNum.negInf, b => b
  | a, JSNum.negInf => a
  | JSNum.num a, JSNum.num b => JSNum.num (max a b)

/-- JavaScript `===` on numbers: NaN is not equal to anything, itself included. -/
def jsEq : JSNum → JSNum → Bool
  | JSNum.nan, _ => false
  | _, JSNum.nan => false
  | JSNum.posInf, JSNum.posInf => true
  | JSNum.negInf, JSNum.negInf => true
  | JSNum.num a, JSNum.num b => decide (a = b)
  | _, _ => false

/-- JavaScript division (ignoring the sign of zero). -/
def jsDiv : JSNum → JSNum → JSNum
  | JSNum.nan, _ => JSNum.nan
  | _, JSNum.nan => JSNum.nan
  | JSNum.posInf, JSNum.posInf => JSNum.nan
  | JSNum.posInf, JSNum.negInf => JSNum.nan
  | JSNum.negInf, JSNum.posInf => JSNum.nan
  | JSNum.negInf, JSNum.negInf => JSNum.nan
  | JSNum.posInf, JSNum.num b => if b < 0 then JSNum.negInf else JSNum.posInf
  | JSNum.negInf, JSNum.num b => if b < 0 then JSNum.posInf else JSNum.negInf
  | JSNum.num _, JSNum.posInf => JSNum.num 0
  | JSNum.num _, JSNum.negInf => JSNum.num 0
  | JSNum.num a, JSNum.num b =>
      if b = 0 then
        if a = 0 then JSNum.nan else if a < 0 then JSNum.negInf else JSNum.posInf
      else JSNum.num (a / b)

/-- JavaScript multiplication (ignoring the sign of zero). -/
def jsMul : JSNum → JSNum → JSNum
  | JSNum.nan, _ => JSNum.nan
  | _, JSNum.nan => JSNum.nan
  | JSNum.posInf, JSNum.posInf => JSNum.posInf
  | JSNum.posInf, JSNum.negInf => JSNum.negInf
  | JSNum.negInf, JSNum.posInf => JSNum.negInf
  | JSNum.negInf, JSNum.negInf => JSNum.posInf
  | JSNum.posInf, JSNum.num b =>
      if b = 0 then JSNum.nan else if b < 0 then JSNum.negInf else JSNum.posInf
  | JSNum.num a, JSNum.posInf =>
      if a = 0 then JSNum.nan else if a < 0 then JSNum.negInf else JSNum.posInf
  | JSNum.negInf, JSNum.num b =>
      if b = 0 then JSNum.nan else if b < 0 then JSNum.posInf else JSNum.negInf
  | JSNum.num a, JSNum.negInf =>
      if a = 0 then JSNum.nan else if a < 0 then JSNum.posInf else JSNum.negInf
  | JSNum.num a, JSNum.num b => JSNum.num (a * b)

/-- Embeds `TaggedText.ts` lines 743-746: the per-axis scale sanitisation
inside `createTextFieldForToken`,
`x = Number.isNaN(x) || x < 0 ? 0 : x`. -/
def clampScale (x : JSNum) : JSNum :=
  if jsIsNaN x || jsLtZero x then JSNum.num 0 else x

/-- Result of the scale/font-size part of `createTextFieldForToken`:
the scale eventually passed to `textField.scale.set` and the font size left
on the text field's style (`none` when the branch leaves it untouched and
the style carried no numeric font size change). -/
structure TextFieldScales where
  finalScaleWidth : JSNum
  finalScaleHeight : JSNum
  fontSize : Option JSNum
deriving DecidableEq

/-- Embeds `TaggedText.ts` lines 742-770 of `createTextFieldForToken`: reads
`fontScaleWidth` / `fontScaleHeight` from the token style (defaulting to 1.0),
clamps NaN and negative values to 0, and when the larger of the two exceeds 1
sets that axis's final scale to 1.0, divides the other axis by the larger
value, and multiplies the style's font size (`?? 0`) by the larger value.
The string-valued font-size case (`fontSizeStringToNumber`) is outside the
claims and the numeric font size is taken directly. -/
def createTextFieldScales
    (styleFontScaleWidth styleFontScaleHeight styleFontSize : Option JSNum) :
    TextFieldScales :=
  let fontScaleWidth := clampScale (styleFontScaleWidth.getD (JSNum.num 1))
  let fontScaleHeight := clampScale (styleFontScaleHeight.getD (JSNum.num 1))
  let largerScale := jsMax fontScaleWidth fontScaleHeight
  if jsLt (JSNum.num 1) largerScale then
    if jsEq largerScale fontScaleHeight then
      { finalScaleWidth := jsDiv fontScaleWidth largerScale
        finalScaleHeight := JSNum.num 1
        fontSize := some (jsMul (styleFontSize.getD (JSNum.num 0)) largerScale) }
    else
      { finalScaleWidth := JSNum.num 1
        finalScaleHeight := jsDiv fontScaleHeight largerScale
        fontSize := some (jsMul (styleFontSize.getD (JSNum.num 0)) largerScale) }
  else
    { finalScaleWidth := fontScaleWidth
      finalScaleHeight := fontScaleHeight
      fontSize := styleFontSize }

/-- A warning delivered to the warnings channel: `(code, message)`. -/
def Warning : Type := String × String

instance : DecidableEq Warning := instDecidableEqProd

/-- An axis-aligned rectangle in layout units (`x`, `y`, `width`, `height`). -/
structure Rect where
  x : ℚ
  y : ℚ
  width : ℚ
  height : ℚ
deriving DecidableEq

/-- Color of a text decoration as stored on the metrics: either a numeric
color or a CSS-like string. -/
inductive DecColor where
  | num : ℕ → DecColor
  | str : String → DecColor
deriving DecidableEq

/-- Color after `createDrawingForTextDecoration` has processed it: a number,
NaN (a `#`-string whose tail held no hex digits), or the untouched string. -/
inductive ResolvedColor where
  | num : ℕ → ResolvedColor
  | nan : ResolvedColor
  | str : String → ResolvedColor
deriving DecidableEq

/-- Modelled from the spec: `TextDecorationMetrics` from `types.ts` (not
under `src/`): one decoration rectangle, `bounds` plus `color`. -/
structure TextDecorationMetrics where
  bounds : Rect
  color : DecColor
deriving DecidableEq

/-- Hex digit test for the `parseInt(_, 16)` model. -/
def isHexDigitChar (c : Char) : Bool :=
  c.isDigit || (('a' ≤ c && c ≤ 'f') || ('A' ≤ c && c ≤ 'F'))

/-- Value of a hex digit. -/
def hexDigitVal (c : Char) : ℕ :=
  if c.isDigit then c.toNat - '0'.toNat
  else if 'a' ≤ c && c ≤ 'f' then c.toNat - 'a'.toNat + 10
  else c.toNat - 'A'.toNat + 10

/-- Model of JavaScript `Number.parseInt(s, 16)` as used at
`TaggedText.ts` line 686: an optional `0x`/`0X` prefix followed by a greedy
run of hex digits; `none` models the NaN result when no digit is found.
(Leading whitespace and sign handling are irrelevant at the call site, which
always passes a string built as `0x` + hex tail.) -/
def jsParseIntHex (s : String) : Option ℕ :=
  let cs := s.data
  let cs :=
    if cs.take 2 = ['0', 'x'] || cs.take 2 = ['0', 'X'] then cs.drop 2 else cs
  let ds := cs.takeWhile isHexDigitChar
  if ds = [] then none
  else some (ds.foldl (fun a c => a * 16 + hexDigitVal c) 0)

/-- JavaScript `color.indexOf(String.fromCharCode 35) === 0` test: does the
string start with the hash character. -/
def strStartsWithHash (s : String) : Bool :=
  match s.data with
  | [] => false
  | c :: _ => c = '#'

/-- The `invalid-color` warning emitted at `TaggedText.ts` lines 689-693. -/
def invalidColorWarning : Warning :=
  ("invalid-color",
   "Sorry, at this point, only hex colors are supported for textDecorations like underlines. Please use either a hex number like 0x66FF33 or a string like \x27#66FF33\x27")

/-- Embeds `TaggedText.ts` lines 683-694: the color processing of
`createDrawingForTextDecoration`.  A string starting with the hash character
is converted via `parseInt` of `0x` + its tail; any other string produces the
`invalid-color` warning and is left unchanged; numbers pass through. -/
def decodeDecorationColor (color : DecColor) : ResolvedColor × List Warning :=
  match color with
  | DecColor.num n => (ResolvedColor.num n, [])
  | DecColor.str s =>
      if strStartsWithHash s then
        match jsParseIntHex ("0x" ++ s.drop 1) with
        | some n => (ResolvedColor.num n, [])
        | none => (ResolvedColor.nan, [])
      else (ResolvedColor.str s, [invalidColorWarning])

/-- Output of `createDrawingForTextDecoration`: the fill color, the rectangle
passed to `drawRect`, and the warnings emitted along the way. -/
structure DecorationDrawing where
  color : ResolvedColor
  rect : Rect
  warnings : List Warning
deriving DecidableEq

/-- Embeds `TaggedText.ts` lines 675-708 (`createDrawingForTextDecoration`):
processes the color, then derives the rectangle with
`x = min(bounds.x - overdraw, midpoint)` and
`width = max(bounds.width + overdraw * 2, 0)`.
`overdrawDecorations` is the option value, defaulting to 0. -/
def createDrawingForTextDecoration
    (overdrawDecorations : Option ℚ) (textDecoration : TextDecorationMetrics) :
    DecorationDrawing :=
  let overdraw := overdrawDecorations.getD 0
  let bounds := textDecoration.bounds
  let dc := decodeDecorationColor textDecoration.color
  let midpoint := bounds.x + bounds.width / 2
  { color := dc.1
    warnings := dc.2
    rect :=
      { x := min (bounds.x - overdraw) midpoint
        y := bounds.y
        width := max (bounds.width + overdraw * 2) 0
        height := bounds.height } }

/-- Modelled from the spec: `capitalize` from `stringUtil.ts` (not under
`src/`): the text-case transform that capitalizes the content, uppercasing
each letter that starts a whitespace-delimited word. -/
def capitalizeChars : Bool → List Char → List Char
  | _, [] => []
  | atWordStart, c :: rest =>
      (if atWordStart then c.toUpper else c)
        :: capitalizeChars c.isWhitespace rest

/-- Modelled from the spec: `capitalize` on strings. -/
def capitalize (s : String) : String :=
  String.mk (capitalizeChars true s.data)

/-- JavaScript `toLowerCase` (ASCII case mapping). -/
def strToLower (s : String) : String :=
  String.mk (s.data.map Char.toLower)

/-- JavaScript `toUpperCase` (ASCII case mapping). -/
def strToUpper (s : String) : String :=
  String.mk (s.data.map Char.toUpper)

/-- Embeds `TaggedText.ts` lines 718-732 of `createTextFieldForToken`: the
text-case transform switch on `token.style.textTransform` (defaulting to the
empty string), matched after lowercasing, applied to the token content before
the text field is created. -/
def createTextFieldTokenText
    (styleTextTransform : Option String) (content : String) : String :=
  let textTransform := styleTextTransform.getD ""
  match strToLower textTransform with
  | "lowercase" => strToLower content
  | "uppercase" => strToUpper content
  | "capitalize" => capitalize content
  | _ => content

/-- Flattened style record.  `types.ts` is not under `src/`; the fields kept
here are exactly the style keys `TaggedText.ts` reads: `imgSrc`
(the image-reference key), `textTransform`, `align`, `fontScaleWidth`,
`fontScaleHeight`, `fontSize`.  A field holding `none` models an absent or
`undefined` key. -/
structure TextStyleExtended where
  imgSrc : Option String := none
  textTransform : Option String := none
  align : Option String := none
  fontScaleWidth : Option JSNum := none
  fontScaleHeight : Option JSNum := none
  fontSize : Option JSNum := none
deriving DecidableEq

/-- Style table: tag name to style record, as an insertion-ordered
association list (JS object semantics). -/
def TextStyleSet : Type := List (String × TextStyleExtended)

instance : DecidableEq TextStyleSet := List.hasDecEq

/-- JS object property write `m[k] = v`: replace in place when the key
exists, else append (insertion order preserved). -/
def styleSetSet : TextStyleSet → String → TextStyleExtended → TextStyleSet
  | [], k, v => [(k, v)]
  | (k', v') :: rest, k, v =>
      if k' = k then (k, v) :: rest else (k', v') :: styleSetSet rest k v

/-- JS object property read `m[k]`. -/
def styleSetGet : TextStyleSet → String → Option TextStyleExtended
  | [], _ => none
  | (k', v') :: rest, k => if k' = k then some v' else styleSetGet rest k

/-- JS `Object.keys`, in insertion order. -/
def styleSetKeys (m : TextStyleSet) : List String := m.map Prod.fst

/-- Modelled from the spec: `DEFAULT_KEY` from `types.ts` (not under
`src/`), the reserved style-table key for the default style. -/
def DEFAULT_KEY : String := "default"

/-- Modelled from the spec: `IMG_REFERENCE_PROPERTY` from `types.ts` (not
under `src/`), the image-reference style key. -/
def IMG_REFERENCE_PROPERTY : String := "imgSrc"

/-- JavaScript truthiness of an optional string value: `undefined` and the
empty string are falsy, every other string is truthy. -/
def jsTruthyStr : Option String → Bool
  | none => false
  | some s => !s.isEmpty

/-- Modelled from the spec: segment-token variant tags, `types.ts` being
absent: `kind ∈ {text, sprite, whitespace, newline}` per spec section 3. -/
inductive TokenKind where
  | text : TokenKind
  | sprite : TokenKind
  | whitespace : TokenKind
  | newline : TokenKind
deriving DecidableEq

/-- Font metrics carried by a segment token. -/
structure FontProps where
  ascent : ℚ
  descent : ℚ
  fontSize : ℚ
deriving DecidableEq

/-- Modelled from the spec: `SegmentToken` from `types.ts` (not under
`src/`): content, the comma-joined active-tag list, the resolved style, the
measured bounds, font metrics and derived decoration rectangles.  The sprite
content (an image handle) carries no data relevant to the claims, so
`content` keeps the string form used by text-like variants. -/
structure SegmentToken where
  kind : TokenKind
  content : String
  tags : String
  style : TextStyleExtended
  bounds : Rect
  fontProperties : FontProps
  textDecorations : List TextDecorationMetrics
deriving DecidableEq

/-- Modelled from the spec: `isTextToken` from `types.ts` — every variant
whose content is a string, i.e. everything but a sprite. -/
def isTextToken (t : SegmentToken) : Bool :=
  match t.kind with
  | TokenKind.sprite => false
  | _ => true

/-- Modelled from the spec: `isSpriteToken` from `types.ts`. -/
def isSpriteToken (t : SegmentToken) : Bool :=
  match t.kind with
  | TokenKind.sprite => true
  | _ => false

/-- Modelled from the spec: `isNewlineToken` from `types.ts`. -/
def isNewlineToken (t : SegmentToken) : Bool :=
  match t.kind with
  | TokenKind.newline => true
  | _ => false

/-- Modelled from the spec: `isWhitespaceToken` from `types.ts` — a text
token whose content is purely whitespace; the newline variant qualifies. -/
def isWhitespaceToken (t : SegmentToken) : Bool :=
  match t.kind with
  | TokenKind.whitespace => true
  | TokenKind.newline => true
  | _ => false

/-- Modelled from the spec: `isNotWhitespaceToken` from `types.ts`. -/
def isNotWhitespaceToken (t : SegmentToken) : Bool :=
  !isWhitespaceToken t

/-- A word: ordered segments that stay on one visual line. -/
def WordToken : Type := List SegmentToken

/-- A committed visual line of words. -/
def LineToken : Type := List WordToken

/-- The full output tree: ordered lines. -/
def ParagraphToken : Type := List LineToken

instance : DecidableEq ParagraphToken :=
  inferInstanceAs (DecidableEq (List (List (List SegmentToken))))

/-- `this._tokens.flat(3)` of `TaggedText.ts` line 110. -/
def tokensFlat (p : ParagraphToken) : List SegmentToken :=
  (p.map (fun line => line.flatten)).flatten

/-- Options record, after the constructor has merged the user's options over
`DEFAULT_OPTIONS` (`defaultOptions.ts` is not under `src/`; post-merge every
flag is present, so the flags are plain booleans).  `imgMap` records whether
an image map was supplied (`TaggedText.ts` line 546 only uses its
truthiness). -/
structure TaggedTextOptions where
  skipUpdates : Bool := false
  skipDraw : Bool := false
  drawWhitespace : Bool := false
  wrapEmoji : Bool := false
  debug : Bool := false
  debugConsole : Bool := false
  overdrawDecorations : Option ℚ := none
  splitStyle : Option String := none
  scaleIcons : Bool := false
  adjustFontBaseline : Option ℚ := none
  imgMap : Bool := false
deriving DecidableEq

/-- Sprite templates: the named image handles; only the identity of the keys
matters to the claims. -/
def ImageMap : Type := List String

instance : DecidableEq ImageMap := List.hasDecEq

/-- The mutable fields of a `TaggedText` instance that the claims observe. -/
structure TaggedTextState where
  text : String
  tagStyles : TextStyleSet
  options : TaggedTextOptions
  spriteTemplates : ImageMap
  tokens : ParagraphToken
  needsUpdate : Bool
  needsDraw : Bool
deriving DecidableEq

/-- Modelled from the spec: the parse → style-map → layout pipeline.
`parseTagsNew` (`tags.ts`), `mapTagsToStyles` (`style.ts`) and
`calculateTokens` (`layout.ts`) are not under `src/`; per spec section 5 the
pass is single-threaded and synchronous, so they are modelled as pure
functions of exactly the arguments `TaggedText.ts` lines 555-575 pass them
(`parseTagsNew` also returns the warnings it reports). -/
structure LayoutPipeline (TagTok StyledTok : Type) where
  parseTagsNew : String → List String → Bool → TagTok × List Warning
  mapTagsToStyles : TagTok → TextStyleSet → Option ImageMap → StyledTok
  calculateTokens : StyledTok → Option String → Bool → Option ℚ → ParagraphToken

/-- Embeds `TaggedText.ts` lines 553-575: the body of `update()` that turns
the current text, style table and options into the new token tree (and the
parse warnings). -/
def computeTokens (p : LayoutPipeline α β) (s : TaggedTextState) :
    ParagraphToken × List Warning :=
  let pr := p.parseTagsNew s.text (styleSetKeys s.tagStyles) s.options.wrapEmoji
  let spriteTemplates := if s.options.imgMap then some s.spriteTemplates else none
  let styledTokens := p.mapTagsToStyles pr.1 s.tagStyles spriteTemplates
  let newFinalTokens :=
    p.calculateTokens styledTokens s.options.splitStyle s.options.scaleIcons
      s.options.adjustFontBaseline
  (newFinalTokens, pr.2)

/-- The `text-decoration-and-whitespace` warning of `TaggedText.ts`
lines 663-667. -/
def textDecorationWhitespaceWarning : Warning :=
  ("text-decoration-and-whitespace",
   "Text decorations, such as underlines, will not appear under whitespace unless the `drawWhitespace` option is set to `true`.")

/-- Embeds `TaggedText.ts` lines 627-630: the token list `draw()` renders —
all flattened tokens, with purely-whitespace tokens removed unless the
`drawWhitespace` option is set. -/
def renderedTokens (opts : TaggedTextOptions) (tokens : ParagraphToken) :
    List SegmentToken :=
  if opts.drawWhitespace then tokensFlat tokens
  else (tokensFlat tokens).filter isNotWhitespaceToken

/-- Embeds `TaggedText.ts` lines 632-667: the warning behaviour of `draw()`.
`drewDecorations` becomes true when a rendered text token carries a non-empty
`textDecorations` list (`t.textDecorations && t.textDecorations.length > 0`),
and the warning fires when additionally `drawWhitespace === false`. -/
def drawWarningsOf (opts : TaggedTextOptions) (tokens : ParagraphToken) :
    List Warning :=
  let toks := renderedTokens opts tokens
  let drewDecorations :=
    toks.any (fun t => isTextToken t && decide (0 < t.textDecorations.length))
  if opts.drawWhitespace = false ∧ drewDecorations = true then
    [textDecorationWhitespaceWarning]
  else []

/-- Embeds `TaggedText.ts` lines 617-673 (`draw()`), restricted to the state
and warnings the claims observe: rebuilds the display children from the
token tree, possibly emits the decoration-under-hidden-whitespace warning,
and clears `needsDraw`.  The only throw in the source `draw()` is the
destroyed-container lifecycle check, which is out of scope here. -/
def draw (s : TaggedTextState) : TaggedTextState × List Warning :=
  ({ s with needsDraw := false }, drawWarningsOf s.options s.tokens)

/-- Embeds `TaggedText.ts` lines 602-612 (`drawIfShould`): draws when the
forced flag is `false`, or when it is absent and the `skipDraw` option is
off. -/
def drawIfShould (s : TaggedTextState) (forcedSkipDraw : Option Bool) :
    TaggedTextState × List Warning :=
  if forcedSkipDraw = some false
      ∨ (forcedSkipDraw = none ∧ s.options.skipDraw = false) then
    draw s
  else (s, [])

/-- Embeds `TaggedText.ts` lines 542-595 (`update()`): computes the new token
tree, stores it, marks `needsDraw`, runs `drawIfShould`, clears
`needsUpdate`, and returns the new tree (with the warnings of the pass). -/
def update (p : LayoutPipeline α β) (s : TaggedTextState)
    (skipDraw : Option Bool) :
    TaggedTextState × ParagraphToken × List Warning :=
  let ct := computeTokens p s
  let s1 := { s with tokens := ct.1, needsDraw := true }
  let d := drawIfShould s1 skipDraw
  let s2 := { d.1 with needsUpdate := false }
  (s2, ct.1, ct.2 ++ d.2)

/-- Embeds `TaggedText.ts` lines 522-531 (`updateIfShould`): updates when the
forced flag is `false`, or when it is absent and the `skipUpdates` option is
off; returns whether the update ran. -/
def updateIfShould (p : LayoutPipeline α β) (s : TaggedTextState)
    (forcedSkipUpdate : Option Bool) :
    TaggedTextState × Bool × List Warning :=
  if forcedSkipUpdate = some false
      ∨ (forcedSkipUpdate = none ∧ s.options.skipUpdates = false) then
    let u := update p s none
    (u.1, true, u.2.2)
  else (s, false, [])

/-- Embeds `TaggedText.ts` lines 133-140 (`setText`): returns unchanged when
the text is identical and no update is pending; otherwise stores the text,
marks `needsUpdate` and runs `updateIfShould`. -/
def setText (p : LayoutPipeline α β) (s : TaggedTextState) (text : String)
    (skipUpdate : Option Bool) : TaggedTextState × List Warning :=
  if text = s.text ∧ s.needsUpdate = false then (s, [])
  else
    let s1 := { s with text := text, needsUpdate := true }
    let u := updateIfShould p s1 skipUpdate
    (u.1, u.2.2)

/-- The `imgSrc-on-default` warning of `TaggedText.ts` lines 214-217. -/
def imgOnDefaultWarning : Warning :=
  ("imgSrc-on-default",
   "Style \x22imgSrc\x22 can not be set on the \x22default\x22 style because it will add images to EVERY tag!")

/-- `this.defaultStyle[IMG_REFERENCE_PROPERTY] = undefined` of
`TaggedText.ts` line 218: clear the image-reference key on the stored
default style. -/
def clearDefaultImgSrc (m : TextStyleSet) : TextStyleSet :=
  match styleSetGet m DEFAULT_KEY with
  | some st => styleSetSet m DEFAULT_KEY { st with imgSrc := none }
  | none => m

/-- Embeds `TaggedText.ts` lines 201-225 (`setStyleForTag`): stores the style
under the tag; when the tag is `default` and the stored default style's
image-reference key is truthy, warns and clears it; marks `needsUpdate`, runs
`updateIfShould`, and returns `true`. -/
def setStyleForTag (p : LayoutPipeline α β) (s : TaggedTextState)
    (tag : String) (styles : TextStyleExtended) (skipUpdate : Option Bool) :
    TaggedTextState × List Warning × Bool :=
  let s1 := { s with tagStyles := styleSetSet s.tagStyles tag styles }
  if tag = DEFAULT_KEY
      ∧ jsTruthyStr ((styleSetGet s1.tagStyles DEFAULT_KEY).bind
          TextStyleExtended.imgSrc) = true then
    let s2 := { s1 with tagStyles := clearDefaultImgSrc s1.tagStyles,
                        needsUpdate := true }
    let u := updateIfShould p s2 skipUpdate
    (u.1, imgOnDefaultWarning :: u.2.2, true)
  else
    let s2 := { s1 with needsUpdate := true }
    let u := updateIfShould p s2 skipUpdate
    (u.1, u.2.2, true)

/-- Embeds `TaggedText.ts` lines 266-271 (`setDefaultStyle`): a shortcut for
`setStyleForTag DEFAULT_KEY`. -/
def setDefaultStyle (p : LayoutPipeline α β) (s : TaggedTextState)
    (defaultStyles : TextStyleExtended) (skipUpdate : Option Bool) :
    TaggedTextState × List Warning × Bool :=
  setStyleForTag p s DEFAULT_KEY defaultStyles skipUpdate

/-- Embeds `TaggedText.ts` lines 169-176 (`setTagStyles`): applies
`setStyleForTag` to every entry with the update skipped, then marks
`needsUpdate` and runs `updateIfShould`. -/
def setTagStyles (p : LayoutPipeline α β) (s : TaggedTextState)
    (styles : List (String × TextStyleExtended)) (skipUpdate : Option Bool) :
    TaggedTextState × List Warning :=
  let folded := styles.foldl
    (fun (acc : TaggedTextState × List Warning) ts =>
      let r := setStyleForTag p acc.1 ts.1 ts.2 (some true)
      (r.1, acc.2 ++ r.2.1))
    (s, [])
  let s1 := { folded.1 with needsUpdate := true }
  let u := updateIfShould p s1 skipUpdate
  (u.1, folded.2 ++ u.2.2)

/-- Modelled from the spec: `removeTags` from `tags.ts` (not under `src/`):
the pure companion function stripping all tag markup and returning only the
literal text content.  Characters between an opening and the next closing
angle bracket are treated as markup and dropped. -/
def removeTagsChars : List Char → Bool → List Char
  | [], _ => []
  | c :: rest, true =>
      if c = '>' then removeTagsChars rest false else removeTagsChars rest true
  | c :: rest, false =>
      if c = '<' then removeTagsChars rest true
      else c :: removeTagsChars rest false

/-- Modelled from the spec: `removeTags` on strings. -/
def removeTags (s : String) : String :=
  String.mk (removeTagsChars s.data false)

/-- Deterministic decimal-free rendering of a rational, standing in for the
JavaScript number-to-string conversion inside template literals (the exact
float formatting is irrelevant to the claims; only determinism and
injectivity on the values compared matter). -/
def ratToString (q : ℚ) : String :=
  if q.den = 1 then toString q.num
  else toString q.num ++ "/" ++ toString q.den

/-- String conversion of a `JSNum`, following the JavaScript conversions of
the special values. -/
def jsNumToString : JSNum → String
  | JSNum.nan => "NaN"
  | JSNum.posInf => "Infinity"
  | JSNum.negInf => "-Infinity"
  | JSNum.num q => ratToString q

/-- Model of `Object.entries(token.style)` at `TaggedText.ts` line 808: the
present keys of the flattened style record with stringified values, in field
declaration order (JS objects enumerate keys in insertion order; the exact
order is a deterministic modelling choice). -/
def styleEntries (st : TextStyleExtended) : List (String × String) :=
  (match st.imgSrc with
   | some v => [("imgSrc", v)]
   | none => []) ++
  (match st.textTransform with
   | some v => [("textTransform", v)]
   | none => []) ++
  (match st.align with
   | some v => [("align", v)]
   | none => []) ++
  (match st.fontScaleWidth with
   | some v => [("fontScaleWidth", jsNumToString v)]
   | none => []) ++
  (match st.fontScaleHeight with
   | some v => [("fontScaleHeight", jsNumToString v)]
   | none => []) ++
  (match st.fontSize with
   | some v => [("fontSize", jsNumToString v)]
   | none => [])

/-- `List.map` with the element index, mirroring the index argument of the
JavaScript `Array.prototype.map` callbacks in `toDebugString`. -/
def mapWithIndexFrom (f : ℕ → α → β) (i : ℕ) : List α → List β
  | [] => []
  | a :: as => f i a :: mapWithIndexFrom f (i + 1) as

/-- `mapWithIndexFrom` starting at index 0. -/
def mapWithIndex (f : ℕ → α → β) (l : List α) : List β :=
  mapWithIndexFrom f 0 l

/-- Embeds the token branch of `TaggedText.ts` lines 786-818: the
human-readable record printed for one segment token. -/
def debugTokenString (lineNumber wordNumber tokenNumber : ℕ)
    (token : SegmentToken) : String :=
  let nl := "\n    "
  let text :=
    if isTextToken token then
      if isNewlineToken token then "\\n"
      else "\x22" ++ token.content ++ "\x22"
    else if isSpriteToken token then "[Image]"
    else ""
  let s := "\n" ++ text ++ ": (" ++ toString lineNumber ++ "/"
    ++ toString wordNumber ++ "/" ++ toString tokenNumber ++ ")"
  let s := s ++ nl ++ "tags: " ++
    (if token.tags.length = 0 then "<none>"
     else String.intercalate ", "
       ((token.tags.splitOn ",").map (fun tag => "<" ++ tag ++ ">")))
  let s := s ++ nl ++ "style: " ++
    String.intercalate "; "
      ((styleEntries token.style).map (fun e => e.1 ++ ":" ++ e.2))
  let s := s ++ nl ++ "size: x:" ++ ratToString token.bounds.x
    ++ " y:" ++ ratToString token.bounds.y
    ++ " width:" ++ ratToString token.bounds.width
    ++ " height:" ++ ratToString token.bounds.height
    ++ " bottom:" ++ ratToString (token.bounds.height + token.bounds.y)
    ++ " right:" ++ ratToString (token.bounds.x + token.bounds.width)
  let s := s ++ nl ++ "font: fontSize:" ++ ratToString token.fontProperties.fontSize
    ++ " ascent:" ++ ratToString token.fontProperties.ascent
    ++ " descent:" ++ ratToString token.fontProperties.descent
  s

/-- JavaScript string coercion of the nested array produced at
`TaggedText.ts` lines 783-821: `s += lines.map(...)` stringifies the array
of per-line arrays, joining nested elements with commas (only the innermost
`word.map(...).join` is an explicit newline join). -/
def jsNestedArrayToString (l : List (List String)) : String :=
  String.intercalate "," (l.map (fun ws => String.intercalate "," ws))

/-- Embeds `TaggedText.ts` lines 778-824 (`toDebugString`): the header is
`this.untaggedText` — i.e. `removeTags` of the instance's raw text — followed
by the per-token records.  The `lines !== undefined` guard is always true. -/
def toDebugString (text : String) (tokens : ParagraphToken) : String :=
  let s := removeTags text ++ "\n=====\n"
  s ++ jsNestedArrayToString
    (mapWithIndex
      (fun lineNumber line =>
        mapWithIndex
          (fun wordNumber word =>
            String.intercalate "\n"
              (mapWithIndex
                (fun tokenNumber token =>
                  debugTokenString lineNumber wordNumber tokenNumber token)
                word))
          line)
      tokens)

/-- A concrete pipeline instance (all stages return trivial values), used to
evaluate the state machinery at concrete inputs. -/
def trivialPipeline : LayoutPipeline Unit Unit where
  parseTagsNew := fun _ _ _ => ((), [])
  mapTagsToStyles := fun _ _ _ => ()
  calculateTokens := fun _ _ _ _ => []

/-- The all-absent style record. -/
def emptyStyle : TextStyleExtended := {}

/-- A concrete instance state: text `a`, a default style entry, default
options (in particular `skipUpdates = false` and `skipDraw = false`), no
pending update. -/
def sampleState : TaggedTextState where
  text := "a"
  tagStyles := [(DEFAULT_KEY, emptyStyle)]
  options := {}
  spriteTemplates := []
  tokens := []
  needsUpdate := false
  needsDraw := false

theorem drawIfShould_fst_text (s : TaggedTextState) (b : Option Bool) :
    (drawIfShould s b).1.text = s.text := by
  unfold drawIfShould draw
  split <;> rfl

theorem drawIfShould_fst_tagStyles (s : TaggedTextState) (b : Option Bool) :
    (drawIfShould s b).1.tagStyles = s.tagStyles := by
  unfold drawIfShould draw
  split <;> rfl

theorem drawIfShould_fst_options (s : TaggedTextState) (b : Option Bool) :
    (drawIfShould s b).1.options = s.options := by
  unfold drawIfShould draw
  split <;> rfl

theorem drawIfShould_fst_spriteTemplates (s : TaggedTextState) (b : Option Bool) :
    (drawIfShould s b).1.spriteTemplates = s.spriteTemplates := by
  unfold drawIfShould draw
  split <;> rfl

theorem update_fst_text (p : LayoutPipeline α β) (s : TaggedTextState)
    (b : Option Bool) : (update p s b).1.text = s.text := by
  show (drawIfShould { s with tokens := (computeTokens p s).1, needsDraw := true } b).1.text
      = s.text
  rw [drawIfShould_fst_text]

theorem update_fst_tagStyles (p : LayoutPipeline α β) (s : TaggedTextState)
    (b : Option Bool) : (update p s b).1.tagStyles = s.tagStyles := by
  show (drawIfShould { s with tokens := (computeTokens p s).1, needsDraw := true } b).1.tagStyles
      = s.tagStyles
  rw [drawIfShould_fst_tagStyles]

theorem update_fst_options (p : LayoutPipeline α β) (s : TaggedTextState)
    (b : Option Bool) : (update p s b).1.options = s.options := by
  show (drawIfShould { s with tokens := (computeTokens p s).1, needsDraw := true } b).1.options
      = s.options
  rw [drawIfShould_fst_options]

theorem update_fst_spriteTemplates (p : LayoutPipeline α β) (s : TaggedTextState)
    (b : Option Bool) : (update p s b).1.spriteTemplates = s.spriteTemplates := by
  show (drawIfShould { s with tokens := (computeTokens p s).1, needsDraw := true } b).1.spriteTemplates
      = s.spriteTemplates
  rw [drawIfShould_fst_spriteTemplates]

theorem update_fst_needsUpdate (p : LayoutPipeline α β) (s : TaggedTextState)
    (b : Option Bool) : (update p s b).1.needsUpdate = false := rfl

theorem computeTokens_congr (p : LayoutPipeline α β)
    (s1 s2 : TaggedTextState)
    (htext : s1.text = s2.text) (hstyles : s1.tagStyles = s2.tagStyles)
    (hopts : s1.options = s2.options)
    (htmpl : s1.spriteTemplates = s2.spriteTemplates) :
    computeTokens p s1 = computeTokens p s2 := by
  unfold computeTokens
  rw [htext, hstyles, hopts, htmpl]

theorem update_snd_tokens (p : LayoutPipeline α β) (s : TaggedTextState)
    (b : Option Bool) : (update p s b).2.1 = (computeTokens p s).1 := rfl

theorem updateIfShould_fst_tagStyles (p : LayoutPipeline α β)
    (s : TaggedTextState) (f : Option Bool) :
    (updateIfShould p s f).1.tagStyles = s.tagStyles := by
  unfold updateIfShould
  split
  · exact update_fst_tagStyles p s none
  · rfl

theorem updateIfShould_fst_text (p : LayoutPipeline α β)
    (s : TaggedTextState) (f : Option Bool) :
    (updateIfShould p s f).1.text = s.text := by
  unfold updateIfShould
  split
  · exact update_fst_text p s none
  · rfl

theorem updateIfShould_needsUpdate_of_run (p : LayoutPipeline α β)
    (s : TaggedTextState) (f : Option Bool)
    (h : f = some false ∨ (f = none ∧ s.options.skipUpdates = false)) :
    (updateIfShould p s f).1.needsUpdate = false := by
  unfold updateIfShould
  rw [if_pos h]
  exact update_fst_needsUpdate p s none

theorem updateIfShould_needsUpdate_of_skip (p : LayoutPipeline α β)
    (s : TaggedTextState) (f : Option Bool)
    (h : ¬(f = some false ∨ (f = none ∧ s.options.skipUpdates = false))) :
    (updateIfShould p s f).1.needsUpdate = s.needsUpdate := by
  unfold updateIfShould
  rw [if_neg h]

theorem styleSetGet_set_self (m : TextStyleSet) (k : String)
    (v : TextStyleExtended) : styleSetGet (styleSetSet m k v) k = some v := by
  induction m with
  | nil => simp [styleSetSet, styleSetGet]
  | cons hd tl ih =>
      by_cases h : hd.1 = k
      · simp [styleSetSet, styleSetGet, h]
      · simp [styleSetSet, styleSetGet, h, ih]

theorem styleSetGet_set_other (m : TextStyleSet) (k k' : String)
    (v : TextStyleExtended) (h : k' ≠ k) :
    styleSetGet (styleSetSet m k v) k' = styleSetGet m k' := by
  induction m with
  | nil => simp [styleSetSet, styleSetGet, Ne.symm h]
  | cons hd tl ih =>
      by_cases hk : hd.1 = k
      · simp [styleSetSet, styleSetGet, hk, Ne.symm h]
      · simp only [styleSetSet, styleSetGet, if_neg hk]
        by_cases hk' : hd.1 = k'
        · simp [hk']
        · simp [hk', ih]

theorem jsDiv_num_num_of_ne_zero (a b : ℚ) (hb : b ≠ 0) :
    jsDiv (JSNum.num a) (JSNum.num b) = JSNum.num (a / b) := by
  simp [jsDiv, hb]

/-- C1: for clamped scale factors whose maximum exceeds 1,
`createTextFieldForToken` sets the final scale of the axis holding the larger
value to 1.0, divides the other axis by the larger value, and multiplies the
font size by the larger value; concretely, clamped inputs `(2, 1)` yield
final scales `(1, 1/2)` and `(1, 3)` yield `(1/3, 1)`. -/
theorem claim_C1_scale_normalization :
    (∀ (sw sh sfs : Option JSNum) (w h : ℚ),
      clampScale (sw.getD (JSNum.num 1)) = JSNum.num w →
      clampScale (sh.getD (JSNum.num 1)) = JSNum.num h →
      1 < max w h →
      ((max w h = h →
          (createTextFieldScales sw sh sfs).finalScaleHeight = JSNum.num 1 ∧
          (createTextFieldScales sw sh sfs).finalScaleWidth
            = JSNum.num (w / max w h)) ∧
       (¬max w h = h →
          (createTextFieldScales sw sh sfs).finalScaleWidth = JSNum.num 1 ∧
          (createTextFieldScales sw sh sfs).finalScaleHeight
            = JSNum.num (h / max w h)) ∧
       (createTextFieldScales sw sh sfs).fontSize
          = some (jsMul (sfs.getD (JSNum.num 0)) (JSNum.num (max w h))))) ∧
    ((createTextFieldScales (some (JSNum.num 2)) (some (JSNum.num 1))
        (some (JSNum.num 10))).finalScaleWidth = JSNum.num 1 ∧
     (createTextFieldScales (some (JSNum.num 2)) (some (JSNum.num 1))
        (some (JSNum.num 10))).finalScaleHeight = JSNum.num (1 / 2) ∧
     (createTextFieldScales (some (JSNum.num 2)) (some (JSNum.num 1))
        (some (JSNum.num 10))).fontSize = some (JSNum.num 20)) ∧
    ((createTextFieldScales (some (JSNum.num 1)) (some (JSNum.num 3))
        (some (JSNum.num 10))).finalScaleWidth = JSNum.num (1 / 3) ∧
     (createTextFieldScales (some (JSNum.num 1)) (some (JSNum.num 3))
        (some (JSNum.num 10))).finalScaleHeight = JSNum.num 1 ∧
     (createTextFieldScales (some (JSNum.num 1)) (some (JSNum.num 3))
        (some (JSNum.num 10))).fontSize = some (JSNum.num 30)) := by
  refine ⟨?_, ?_, ?_⟩
  · intro sw sh sfs w h hw hh hL
    have hne0 : max w h ≠ 0 := (lt_trans zero_lt_one hL).ne'
    simp only [createTextFieldScales, hw, hh]
    have hmax : jsMax (JSNum.num w) (JSNum.num h) = JSNum.num (max w h) := rfl
    rw [hmax]
    have hlt : jsLt (JSNum.num 1) (JSNum.num (max w h)) = true := by
      simpa [jsLt] using hL
    rw [if_pos hlt]
    by_cases hEq : max w h = h
    · have he : jsEq (JSNum.num (max w h)) (JSNum.num h) = true := by
        simp [jsEq, hEq]
      rw [if_pos he]
      refine ⟨fun _ => ⟨rfl, ?_⟩, fun hne => absurd hEq hne, rfl⟩
      exact jsDiv_num_num_of_ne_zero w (max w h) hne0
    · have he : ¬jsEq (JSNum.num (max w h)) (JSNum.num h) = true := by
        simp [jsEq, hEq]
      rw [if_neg he]
      refine ⟨fun heq => absurd heq hEq, fun _ => ⟨rfl, ?_⟩, rfl⟩
      exact jsDiv_num_num_of_ne_zero h (max w h) hne0
  · refine ⟨?_, ?_, ?_⟩ <;>
      norm_num [createTextFieldScales, clampScale, jsIsNaN, jsLtZero, jsLt,
        jsMax, jsEq, jsDiv, jsMul]
  · refine ⟨?_, ?_, ?_⟩ <;>
      norm_num [createTextFieldScales, clampScale, jsIsNaN, jsLtZero, jsLt,
        jsMax, jsEq, jsDiv, jsMul]

/-- C1 witness: the universal part of `claim_C1_scale_normalization`
instantiated at the clamped scales `(2, 1)` with font size 10. -/
theorem claim_C1_scale_normalization_witness :
    (clampScale ((some (JSNum.num 2)).getD (JSNum.num 1)) = JSNum.num 2
      ∧ clampScale ((some (JSNum.num 1)).getD (JSNum.num 1)) = JSNum.num 1
      ∧ (1 : ℚ) < max 2 1) ∧
    ((max (2 : ℚ) 1 = 1 →
        (createTextFieldScales (some (JSNum.num 2)) (some (JSNum.num 1))
            (some (JSNum.num 10))).finalScaleHeight = JSNum.num 1 ∧
        (createTextFieldScales (some (JSNum.num 2)) (some (JSNum.num 1))
            (some (JSNum.num 10))).finalScaleWidth
          = JSNum.num (2 / max 2 1)) ∧
     (¬max (2 : ℚ) 1 = 1 →
        (createTextFieldScales (some (JSNum.num 2)) (some (JSNum.num 1))
            (some (JSNum.num 10))).finalScaleWidth = JSNum.num 1 ∧
        (createTextFieldScales (some (JSNum.num 2)) (some (JSNum.num 1))
            (some (JSNum.num 10))).finalScaleHeight
          = JSNum.num (1 / max 2 1)) ∧
     (createTextFieldScales (some (JSNum.num 2)) (some (JSNum.num 1))
         (some (JSNum.num 10))).fontSize
        = some (jsMul ((some (JSNum.num 10)).getD (JSNum.num 0))
            (JSNum.num (max 2 1)))) :=
  ⟨⟨by decide, by decide, by norm_num⟩,
   claim_C1_scale_normalization.1 (some (JSNum.num 2)) (some (JSNum.num 1))
     (some (JSNum.num 10)) 2 1 (by decide) (by decide) (by norm_num)⟩

/-- C5 counterexample: a positive-infinite `fontScaleWidth` is not clamped
by `createTextFieldForToken` — the clamp leaves it infinite and the infinity
is applied, driving the resulting font size to infinity — refuting the claim
that every non-finite scale factor is clamped to the safe defaults 0 or 1. -/
theorem claim_C5_counterexample :
    clampScale JSNum.posInf = JSNum.posInf ∧
    (createTextFieldScales (some JSNum.posInf) (some (JSNum.num 1))
        (some (JSNum.num 12))).fontSize = some JSNum.posInf ∧
    JSNum.posInf ≠ JSNum.num 0 ∧ JSNum.posInf ≠ JSNum.num 1 := by
  decide

/-- C5 (amended): `createTextFieldForToken` silently clamps a NaN or negative
(including negative-infinite) scale factor to 0 before applying it — the
computation is exactly the one with 0 substituted — while a positive-infinite
value passes through the clamp unchanged; no warning is emitted and no
exception is raised (the embedded functions are total and warning-free). -/
theorem claim_C5_scale_clamping (x : JSNum) (sw sh sfs : Option JSNum)
    (hx : jsIsNaN x = true ∨ jsLtZero x = true) :
    clampScale x = JSNum.num 0 ∧
    createTextFieldScales (some x) sh sfs
      = createTextFieldScales (some (JSNum.num 0)) sh sfs ∧
    createTextFieldScales sw (some x) sfs
      = createTextFieldScales sw (some (JSNum.num 0)) sfs := by
  have h0 : clampScale x = JSNum.num 0 := by
    unfold clampScale
    rcases hx with h | h <;> simp [h]
  have h0z : clampScale (JSNum.num 0) = JSNum.num 0 := by decide
  refine ⟨h0, ?_, ?_⟩ <;>
    simp [createTextFieldScales, h0, h0z]

/-- C5 witness: `claim_C5_scale_clamping` instantiated at NaN. -/
theorem claim_C5_scale_clamping_witness :
    (jsIsNaN JSNum.nan = true ∨ jsLtZero JSNum.nan = true) ∧
    (clampScale JSNum.nan = JSNum.num 0 ∧
     createTextFieldScales (some JSNum.nan) (some (JSNum.num 1)) none
       = createTextFieldScales (some (JSNum.num 0)) (some (JSNum.num 1)) none ∧
     createTextFieldScales none (some JSNum.nan) none
       = createTextFieldScales none (some (JSNum.num 0)) none) :=
  ⟨Or.inl (by decide),
   claim_C5_scale_clamping JSNum.nan none (some (JSNum.num 1)) none
     (Or.inl (by decide))⟩

/-- C4: the rectangle produced by `createDrawingForTextDecoration` has
non-negative width for every decoration metrics value and every value of the
`overdrawDecorations` option, including large negative overdraws. -/
theorem claim_C4_decoration_width_nonneg (od : Option ℚ)
    (td : TextDecorationMetrics) :
    0 ≤ (createDrawingForTextDecoration od td).rect.width := by
  simp only [createDrawingForTextDecoration]
  exact le_max_right _ 0

/-- C6 counterexample: for the unsupported color string `red`,
`createDrawingForTextDecoration` emits the `invalid-color` warning but does
not correct the color — the unsupported string is passed through unchanged to
the fill — refuting the claim that the color is automatically corrected to a
nearest safe value before drawing. -/
theorem claim_C6_counterexample :
    (createDrawingForTextDecoration none
        ⟨⟨0, 0, 0, 0⟩, DecColor.str "red"⟩).warnings = [invalidColorWarning] ∧
    (createDrawingForTextDecoration none
        ⟨⟨0, 0, 0, 0⟩, DecColor.str "red"⟩).color = ResolvedColor.str "red" := by
  constructor <;> decide

/-- C6 (amended): when a text-decoration color is a string not beginning
with the hash character, `createDrawingForTextDecoration` emits the
`invalid-color` warning and leaves the color unchanged (no correction is
applied); when it is a hash-prefixed string whose tail parses as hex it is
converted to the corresponding numeric color with no warning. -/
theorem claim_C6_color_handling (od : Option ℚ) (b : Rect) (s : String) :
    (strStartsWithHash s = false →
      (createDrawingForTextDecoration od ⟨b, DecColor.str s⟩).color
          = ResolvedColor.str s ∧
      (createDrawingForTextDecoration od ⟨b, DecColor.str s⟩).warnings
          = [invalidColorWarning]) ∧
    (strStartsWithHash s = true →
      ∀ n : ℕ, jsParseIntHex ("0x" ++ s.drop 1) = some n →
        (createDrawingForTextDecoration od ⟨b, DecColor.str s⟩).color
            = ResolvedColor.num n ∧
        (createDrawingForTextDecoration od ⟨b, DecColor.str s⟩).warnings
            = []) := by
  constructor
  · intro hns
    simp [createDrawingForTextDecoration, decodeDecorationColor, hns]
  · intro hs n hn
    simp [createDrawingForTextDecoration, decodeDecorationColor, hs, hn]

/-- C6 witness: `claim_C6_color_handling` instantiated at the unsupported
string `red` and at the hex string `#66FF33` (which is `6750003`). -/
theorem claim_C6_color_handling_witness :
    (strStartsWithHash "red" = false ∧
     (createDrawingForTextDecoration none
         ⟨⟨0, 0, 1, 1⟩, DecColor.str "red"⟩).color = ResolvedColor.str "red" ∧
     (createDrawingForTextDecoration none
         ⟨⟨0, 0, 1, 1⟩, DecColor.str "red"⟩).warnings
       = [invalidColorWarning]) ∧
    (strStartsWithHash "#66FF33" = true ∧
     jsParseIntHex ("0x" ++ "#66FF33".drop 1) = some 6750003 ∧
     (createDrawingForTextDecoration none
         ⟨⟨0, 0, 1, 1⟩, DecColor.str "#66FF33"⟩).color
       = ResolvedColor.num 6750003 ∧
     (createDrawingForTextDecoration none
         ⟨⟨0, 0, 1, 1⟩, DecColor.str "#66FF33"⟩).warnings = []) := by
  refine ⟨⟨by decide, ?_, ?_⟩, ⟨by decide, by decide, ?_, ?_⟩⟩
  · exact ((claim_C6_color_handling none ⟨0, 0, 1, 1⟩ "red").1 (by decide)).1
  · exact ((claim_C6_color_handling none ⟨0, 0, 1, 1⟩ "red").1 (by decide)).2
  · exact ((claim_C6_color_handling none ⟨0, 0, 1, 1⟩ "#66FF33").2 (by decide)
      6750003 (by decide)).1
  · exact ((claim_C6_color_handling none ⟨0, 0, 1, 1⟩ "#66FF33").2 (by decide)
      6750003 (by decide)).2

/-- C9: the text rendered for a text segment token is exactly the case
transform selected by the resolved style's `textTransform` key applied to the
token content: `lowercase` lowercases, `uppercase` uppercases, `capitalize`
capitalizes, and any other value (including an absent key) leaves the content
unchanged. -/
theorem claim_C9_text_transform (tt : Option String) (content : String) :
    (strToLower (tt.getD "") = "lowercase" →
      createTextFieldTokenText tt content = strToLower content) ∧
    (strToLower (tt.getD "") = "uppercase" →
      createTextFieldTokenText tt content = strToUpper content) ∧
    (strToLower (tt.getD "") = "capitalize" →
      createTextFieldTokenText tt content = capitalize content) ∧
    (strToLower (tt.getD "") ≠ "lowercase" →
      strToLower (tt.getD "") ≠ "uppercase" →
      strToLower (tt.getD "") ≠ "capitalize" →
      createTextFieldTokenText tt content = content) := by
  refine ⟨fun h => ?_, fun h => ?_, fun h => ?_, fun h1 h2 h3 => ?_⟩ <;>
    simp only [createTextFieldTokenText]
  · rw [h]
    rfl
  · rw [h]
    rfl
  · rw [h]
    rfl

/-- C9 witness: `claim_C9_text_transform` instantiated at the style value
`UPPERCASE` (matched case-insensitively) and content `abc`. -/
theorem claim_C9_text_transform_witness :
    (strToLower ((some "UPPERCASE").getD "") = "uppercase" ∧
     createTextFieldTokenText (some "UPPERCASE") "abc" = strToUpper "abc") :=
  ⟨by decide,
   (claim_C9_text_transform (some "UPPERCASE") "abc").2.1 (by decide)⟩

/-- C7 counterexample: two instances with equal (empty) token trees but
different raw texts produce different debug strings — `toDebugString` opens
with the instance's untagged text, so it is not a function of the token tree
alone, refuting the claim. -/
theorem claim_C7_counterexample :
    toDebugString "a" [] ≠ toDebugString "b" [] := by
  decide

/-- C7 (amended): `toDebugString` is a pure function of the token tree and
the instance's text (through the `untaggedText` header): any two instances
agreeing on `removeTags` of their text and on their token trees produce
character-for-character identical debug strings, regardless of any other
instance state. -/
theorem claim_C7_debug_purity (t1 t2 : String) (tok1 tok2 : ParagraphToken)
    (ht : removeTags t1 = removeTags t2) (htok : tok1 = tok2) :
    toDebugString t1 tok1 = toDebugString t2 tok2 := by
  unfold toDebugString
  rw [ht, htok]

/-- C7 witness: `claim_C7_debug_purity` at texts `a` and `<x>a` (whose
untagged text is also `a`) with empty token trees. -/
theorem claim_C7_debug_purity_witness :
    removeTags "a" = removeTags "<x>a" ∧
    toDebugString "a" [] = toDebugString "<x>a" [] :=
  ⟨by decide, claim_C7_debug_purity "a" "<x>a" [] [] (by decide) rfl⟩

/-- C8: `draw()` reports the decoration-under-hidden-whitespace conflict via
the warnings sink rather than throwing: it emits the
`text-decoration-and-whitespace` warning exactly when the `drawWhitespace`
option is false and at least one rendered text token carries a non-empty
`textDecorations` list, and no such warning otherwise. -/
theorem claim_C8_decoration_whitespace_warning (s : TaggedTextState) :
    textDecorationWhitespaceWarning ∈ (draw s).2 ↔
      (s.options.drawWhitespace = false ∧
       ∃ t ∈ renderedTokens s.options s.tokens,
         isTextToken t = true ∧ t.textDecorations ≠ []) := by
  show textDecorationWhitespaceWarning ∈ drawWarningsOf s.options s.tokens ↔ _
  unfold drawWarningsOf
  by_cases hc : s.options.drawWhitespace = false ∧
      (renderedTokens s.options s.tokens).any
        (fun t => isTextToken t && decide (0 < t.textDecorations.length)) = true
  · rw [if_pos hc]
    simp only [List.mem_singleton]
    constructor
    · intro _
      obtain ⟨h1, h2⟩ := hc
      rw [List.any_eq_true] at h2
      obtain ⟨t, ht, hp⟩ := h2
      rw [Bool.and_eq_true, decide_eq_true_eq] at hp
      exact ⟨h1, t, ht, hp.1, List.length_pos.mp hp.2⟩
    · intro _
      trivial
  · rw [if_neg hc]
    constructor
    · intro h
      exact absurd h (List.not_mem_nil _)
    · intro hcon
      obtain ⟨h1, t, ht, hT, hD⟩ := hcon
      refine absurd ⟨h1, List.any_eq_true.mpr ⟨t, ht, ?_⟩⟩ hc
      rw [Bool.and_eq_true, decide_eq_true_eq]
      exact ⟨hT, List.length_pos.mpr hD⟩

/-- C2: re-running `update()` with no intervening mutation returns a token
tree equal to the first pass's tree (hence equal in tags, style, segment
ordering and bounds): the pass reads only the text, style table, options and
sprite templates, none of which it modifies. -/
theorem claim_C2_update_idempotent {α β : Type} (p : LayoutPipeline α β)
    (s : TaggedTextState) (b1 b2 : Option Bool) :
    (update p (update p s b1).1 b2).2.1 = (update p s b1).2.1 := by
  have h := computeTokens_congr p (update p s b1).1 s
    (update_fst_text p s b1) (update_fst_tagStyles p s b1)
    (update_fst_options p s b1) (update_fst_spriteTemplates p s b1)
  rw [update_snd_tokens, update_snd_tokens, h]

/-- C10 counterexample: with default options (`skipUpdates = false`), setting
a different text triggers the update pass, which completes and leaves
`needsUpdate = false` — refuting the claim that in every non-no-op case
`needsUpdate` becomes true after the call. -/
theorem claim_C10_counterexample :
    ¬("b" = sampleState.text ∧ sampleState.needsUpdate = false) ∧
    (setText trivialPipeline sampleState "b" none).1.text = "b" ∧
    (setText trivialPipeline sampleState "b" none).1.needsUpdate = false := by
  refine ⟨?_, ?_, ?_⟩ <;> decide

/-- C10 (amended): `setText(t)` with `t` equal to the current text and
`needsUpdate` false is a complete no-op (state unchanged, no warnings, no
update or draw pass); in every other case the text is stored and
`needsUpdate` is set to true, after which the update pass runs when
`skipUpdate` is false or unset with `options.skipUpdates` false — leaving
`needsUpdate` false — and otherwise `needsUpdate` remains true. -/
theorem claim_C10_setText {α β : Type} (p : LayoutPipeline α β)
    (s : TaggedTextState) (t : String) (sk : Option Bool) :
    (t = s.text ∧ s.needsUpdate = false → setText p s t sk = (s, [])) ∧
    (¬(t = s.text ∧ s.needsUpdate = false) →
      (setText p s t sk).1.text = t ∧
      ((sk = some false ∨ (sk = none ∧ s.options.skipUpdates = false)) →
        (setText p s t sk).1.needsUpdate = false) ∧
      (¬(sk = some false ∨ (sk = none ∧ s.options.skipUpdates = false)) →
        (setText p s t sk).1.needsUpdate = true)) := by
  constructor
  · intro h
    unfold setText
    rw [if_pos h]
  · intro h
    have e : setText p s t sk
        = ((updateIfShould p { s with text := t, needsUpdate := true } sk).1,
           (updateIfShould p { s with text := t, needsUpdate := true } sk).2.2) := by
      unfold setText
      rw [if_neg h]
    rw [e]
    refine ⟨?_, ?_, ?_⟩
    · rw [updateIfShould_fst_text]
    · intro hrun
      exact updateIfShould_needsUpdate_of_run p _ sk hrun
    · intro hskip
      exact updateIfShould_needsUpdate_of_skip p _ sk hskip

/-- C10 witness: the no-op branch of `claim_C10_setText` at `sampleState`
(current text `a`, no pending update). -/
theorem claim_C10_setText_witness :
    ("a" = sampleState.text ∧ sampleState.needsUpdate = false) ∧
    setText trivialPipeline sampleState "a" none = (sampleState, []) :=
  ⟨⟨rfl, rfl⟩,
   (claim_C10_setText trivialPipeline sampleState "a" none).1 ⟨rfl, rfl⟩⟩

/-- C3 counterexample: supplying the image-reference key with the (falsy)
empty-string value on the `default` style via `setStyleForTag` neither clears
it nor raises a warning — the default style afterwards still carries the key
with value `""` — refuting the claim that any supplied image-reference key on
`default` is cleared and warned about. -/
theorem claim_C3_counterexample :
    (styleSetGet (setStyleForTag trivialPipeline sampleState DEFAULT_KEY
        { emptyStyle with imgSrc := some "" } none).1.tagStyles
      DEFAULT_KEY).bind TextStyleExtended.imgSrc = some "" ∧
    (setStyleForTag trivialPipeline sampleState DEFAULT_KEY
        { emptyStyle with imgSrc := some "" } none).2.1 = [] := by
  refine ⟨?_, ?_⟩ <;> decide

/-- C3 (amended): after any completed `setStyleForTag` call (the operation
underlying `setDefaultStyle`, `setTagStyles` and the constructor) on a state
whose default style holds no truthy image-reference value, the default style
still holds no truthy image-reference value and the call returns true rather
than throwing; when the caller supplies a truthy image-reference value on the
`default` style it is cleared (set to absent) and the image-reference warning
is raised, while a falsy value (absent or empty string) is stored untouched
with no warning. -/
theorem claim_C3_img_on_default {α β : Type} (p : LayoutPipeline α β)
    (s : TaggedTextState) (tag : String) (styles : TextStyleExtended)
    (sk : Option Bool)
    (hpre : jsTruthyStr ((styleSetGet s.tagStyles DEFAULT_KEY).bind
        TextStyleExtended.imgSrc) = false) :
    (setStyleForTag p s tag styles sk).2.2 = true ∧
    jsTruthyStr ((styleSetGet (setStyleForTag p s tag styles sk).1.tagStyles
        DEFAULT_KEY).bind TextStyleExtended.imgSrc) = false ∧
    (tag = DEFAULT_KEY → jsTruthyStr styles.imgSrc = true →
      (styleSetGet (setStyleForTag p s tag styles sk).1.tagStyles
          DEFAULT_KEY).bind TextStyleExtended.imgSrc = none ∧
      imgOnDefaultWarning ∈ (setStyleForTag p s tag styles sk).2.1) ∧
    (tag = DEFAULT_KEY → jsTruthyStr styles.imgSrc = false →
      styleSetGet (setStyleForTag p s tag styles sk).1.tagStyles DEFAULT_KEY
        = some styles) := by
  by_cases hc : tag = DEFAULT_KEY
      ∧ jsTruthyStr ((styleSetGet (styleSetSet s.tagStyles tag styles)
          DEFAULT_KEY).bind TextStyleExtended.imgSrc) = true
  · obtain ⟨htag, htruthy⟩ := hc
    subst htag
    have hget : styleSetGet (styleSetSet s.tagStyles DEFAULT_KEY styles)
        DEFAULT_KEY = some styles :=
      styleSetGet_set_self s.tagStyles DEFAULT_KEY styles
    have e : setStyleForTag p s DEFAULT_KEY styles sk
        = ((updateIfShould p { s with tagStyles := clearDefaultImgSrc (styleSetSet s.tagStyles DEFAULT_KEY styles), needsUpdate := true } sk).1,
           imgOnDefaultWarning :: (updateIfShould p { s with tagStyles := clearDefaultImgSrc (styleSetSet s.tagStyles DEFAULT_KEY styles), needsUpdate := true } sk).2.2,
           true) := by
      unfold setStyleForTag
      rw [if_pos ⟨rfl, htruthy⟩]
    have hclear : clearDefaultImgSrc (styleSetSet s.tagStyles DEFAULT_KEY styles)
        = styleSetSet (styleSetSet s.tagStyles DEFAULT_KEY styles) DEFAULT_KEY
            { styles with imgSrc := none } := by
      unfold clearDefaultImgSrc
      rw [hget]
    have hget2 : styleSetGet
        (clearDefaultImgSrc (styleSetSet s.tagStyles DEFAULT_KEY styles))
        DEFAULT_KEY = some { styles with imgSrc := none } := by
      rw [hclear]
      exact styleSetGet_set_self _ DEFAULT_KEY _
    rw [e]
    refine ⟨rfl, ?_, ?_, ?_⟩
    · rw [updateIfShould_fst_tagStyles, hget2]
      rfl
    · intro _ _
      refine ⟨?_, List.mem_cons_self _ _⟩
      rw [updateIfShould_fst_tagStyles, hget2]
      rfl
    · intro _ hfalsy
      rw [hget] at htruthy
      have htruthy2 : jsTruthyStr styles.imgSrc = true := htruthy
      rw [hfalsy] at htruthy2
      exact absurd htruthy2 Bool.false_ne_true
  · have e : setStyleForTag p s tag styles sk
        = ((updateIfShould p { s with tagStyles := styleSetSet s.tagStyles tag styles, needsUpdate := true } sk).1,
           (updateIfShould p { s with tagStyles := styleSetSet s.tagStyles tag styles, needsUpdate := true } sk).2.2,
           true) := by
      unfold setStyleForTag
      rw [if_neg hc]
    rw [e]
    refine ⟨rfl, ?_, ?_, ?_⟩
    · rw [updateIfShould_fst_tagStyles]
      by_cases htag : tag = DEFAULT_KEY
      · subst htag
        rw [styleSetGet_set_self]
        show jsTruthyStr styles.imgSrc = false
        rcases Bool.eq_false_or_eq_true (jsTruthyStr styles.imgSrc) with hb | hb
        · refine absurd ?_ hc
          refine ⟨rfl, ?_⟩
          rw [styleSetGet_set_self]
          show jsTruthyStr styles.imgSrc = true
          exact hb
        · exact hb
      · rw [styleSetGet_set_other s.tagStyles tag DEFAULT_KEY styles
          (fun hh => htag hh.symm)]
        exact hpre
    · intro htag htruthy
      subst htag
      refine absurd ?_ hc
      refine ⟨rfl, ?_⟩
      rw [styleSetGet_set_self]
      show jsTruthyStr styles.imgSrc = true
      exact htruthy
    · intro htag _
      subst htag
      rw [updateIfShould_fst_tagStyles]
      exact styleSetGet_set_self s.tagStyles DEFAULT_KEY styles

/-- C3 witness: `claim_C3_img_on_default` at `sampleState` (whose default
style has no image reference), setting a default style carrying the truthy
image reference `icon`. -/
theorem claim_C3_img_on_default_witness :
    (jsTruthyStr ((styleSetGet sampleState.tagStyles DEFAULT_KEY).bind
        TextStyleExtended.imgSrc) = false) ∧
    ((DEFAULT_KEY = DEFAULT_KEY) ∧
     jsTruthyStr ({ emptyStyle with imgSrc := some "icon" }
        : TextStyleExtended).imgSrc = true) ∧
    ((styleSetGet (setStyleForTag trivialPipeline sampleState DEFAULT_KEY
          { emptyStyle with imgSrc := some "icon" } none).1.tagStyles
        DEFAULT_KEY).bind TextStyleExtended.imgSrc = none ∧
     imgOnDefaultWarning ∈ (setStyleForTag trivialPipeline sampleState
        DEFAULT_KEY { emptyStyle with imgSrc := some "icon" } none).2.1) :=
  ⟨by decide, ⟨rfl, by decide⟩,
   (claim_C3_img_on_default trivialPipeline sampleState DEFAULT_KEY
       { emptyStyle with imgSrc := some "icon" } none (by decide)).2.2.1
     rfl (by decide)⟩
